import Mathlib

/-!
Shallow embedding of the sailpoint-mcp server (src/index.ts): the JS value
model used for tool arguments, the OAuth2 token cache (getAccessToken), the
error formatter (formatError), credential validation (validateCredentials),
and the per-tool request dispatcher (the switch inside handleTool),
together with theorems settling the testable properties of the spec.
-/

namespace SailPoint

/-- JSON-like JavaScript values, as they appear in tool argument bags,
query parameters and request bodies.  `null` also stands for JS
`undefined` where the source does not distinguish them; key absence in an
argument bag is the primary model of `undefined`. -/
inductive JValue where
  | null : JValue
  | bool : Bool → JValue
  | num : Int → JValue
  | str : String → JValue
  | arr : List JValue → JValue
  | obj : List (String × JValue) → JValue
deriving Repr

/-- JavaScript truthiness of a value (`if (v)`): `0`, `""`, `false`,
`null`/`undefined` are falsy; arrays and objects are always truthy. -/
def truthy : JValue → Bool
  | .null => false
  | .bool b => b
  | .num n => n != 0
  | .str s => s != ""
  | .arr _ => true
  | .obj _ => true

mutual

/-- JavaScript `String(v)` conversion, as performed by template-literal
interpolation such as `` `/v3/accounts/${args.id}/enable` `` in the source. -/
def jsToString : JValue → String
  | .null => "null"
  | .bool b => if b then "true" else "false"
  | .num n => toString n
  | .str s => s
  | .arr xs => jsArrayToString xs
  | .obj _ => "[object Object]"

/-- JavaScript `Array.prototype.toString`: elements joined with `","`,
with `null`/`undefined` elements rendered as the empty string. -/
def jsArrayToString : List JValue → String
  | [] => ""
  | [.null] => ""
  | [x] => jsToString x
  | .null :: xs => "," ++ jsArrayToString xs
  | x :: xs => jsToString x ++ "," ++ jsArrayToString xs

end

/-- A tool-call argument bag (`args: Record<string, unknown>`). -/
abbrev Args := List (String × JValue)

/-- Reading `args.k` where the source then treats the value as defined
(body construction like `name: args.name`); an absent key is `undefined`,
conflated with `null` here. -/
def argD (args : Args) (k : String) : JValue :=
  (args.lookup k).getD .null

/-- The JS idiom `args.k || dflt`: the value if truthy, else the default. -/
def argOr (args : Args) (k : String) (dflt : JValue) : JValue :=
  match args.lookup k with
  | some v => if truthy v then v else dflt
  | none => dflt

/-- Template-literal interpolation of `args.k` into a path: an absent key
stringifies as `"undefined"`, exactly as JS `String(undefined)`. -/
def argString (args : Args) (k : String) : String :=
  match args.lookup k with
  | some v => jsToString v
  | none => "undefined"

/-- The recurring source pattern `if (args.src) params[dst] = args.src`:
append the binding to the accumulated parameter record only when the
supplied value is truthy. -/
def addParam (args : Args) (srcKey dstKey : String)
    (acc : List (String × JValue)) : List (String × JValue) :=
  match args.lookup srcKey with
  | some v => if truthy v then acc ++ [(dstKey, v)] else acc
  | none => acc

/-! ## Token cache (getAccessToken, src/index.ts lines 61-96) -/

/-- The module-level token cache: `accessToken: string | null` and
`tokenExpiry: number` (milliseconds since epoch). -/
structure TokenState where
  accessToken : Option String
  tokenExpiry : Int
deriving Repr, DecidableEq

/-- The credential-exchange response body: `{access_token, expires_in}`,
`expires_in` in seconds and possibly absent. -/
structure TokenResponse where
  access_token : String
  expires_in : Option Int
deriving Repr, DecidableEq

/-- Result of one `getAccessToken()` invocation: the returned token, the
token cache after the call, and how many network calls were made. -/
structure TokenOutcome where
  token : String
  state : TokenState
  networkCalls : Nat
deriving Repr, DecidableEq

/-- The refresh path of `getAccessToken`: one POST to the token endpoint;
`expires_in || 720` (the JS `||` defaults on the falsy number 0 as well as
on absence), `tokenExpiry = now + expiresIn * 1000`. -/
def refreshToken (now : Int) (resp : TokenResponse) : TokenOutcome :=
  let expiresIn : Int :=
    match resp.expires_in with
    | some v => if v = 0 then 720 else v
    | none => 720
  ⟨resp.access_token, ⟨some resp.access_token, now + expiresIn * 1000⟩, 1⟩

/-- `getAccessToken()` as a pure step function of the cache state, the
current time `now = Date.now()`, and the response the token endpoint would
return if called.  The guard mirrors
`if (accessToken && tokenExpiry > now + 60000) return accessToken;`:
a cached token is reused only when it is truthy (non-null, nonempty). -/
def getAccessToken (st : TokenState) (now : Int) (resp : TokenResponse) :
    TokenOutcome :=
  match st.accessToken with
  | some t =>
    if t ≠ "" ∧ st.tokenExpiry > now + 60000 then ⟨t, st, 0⟩
    else refreshToken now resp
  | none => refreshToken now resp

/-! ## Request dispatcher (handleTool, src/index.ts lines 974-1353) -/

/-- HTTP method of an upstream call. -/
inductive Method where
  | get : Method
  | post : Method
deriving Repr, DecidableEq, BEq

/-- One upstream HTTP request as assembled by the dispatcher: method, path
(relative to the configured base URL), query parameters in insertion
order, optional JSON body, and the Authorization header value. -/
structure Request where
  method : Method
  path : String
  query : List (String × JValue)
  body : Option JValue
  authHeader : String
deriving Repr

/-- Replace the first occurrence of `pat` in a character list by `repl`
(the semantics of JS `String.prototype.replace` with a string pattern). -/
def replaceFirstAux (pat repl : List Char) : List Char → List Char
  | [] => []
  | c :: rest =>
    if pat.isPrefixOf (c :: rest) then repl ++ (c :: rest).drop pat.length
    else c :: replaceFirstAux pat repl rest

/-- JS `s.replace(pat, repl)` for string patterns: only the first
occurrence is replaced. -/
def jsReplaceFirst (s pat repl : String) : String :=
  ⟨replaceFirstAux pat.data repl.data s.data⟩

/-- The `apiPath` helper of the dispatcher:
`path.replace("/v3/", `/\x7bSAILPOINT_API_VERSION\x7d/`)`. -/
def apiPath (version path : String) : String :=
  jsReplaceFirst path "/v3/" ("/" ++ version ++ "/")

/-- The failures `handleTool` can raise before any upstream domain call:
the credential-validation error and the unknown-tool error. -/
inductive ToolFailure where
  | configError : String → ToolFailure
  | unknownTool : String → ToolFailure
deriving Repr, DecidableEq

/-- The `entitlementIds`/`accessProfileIds` mapping
`(ids as string[]).map((id) => (\x7b id, type \x7d))`; the source assumes
the argument is an array. -/
def toRefArray (ty : JValue) : JValue → JValue
  | .arr xs => .arr (xs.map (fun x => .obj [("id", x), ("type", ty)]))
  | _ => .null

/-- The `switch (name)` body of `handleTool`: maps a tool name and
argument bag to the single upstream request the source would issue,
given the resolved API version and the bearer token the token cache
produced.  Unrecognized names reach the `default` branch and fail with
`Unknown tool: ...`. -/
def buildRequest (version token name : String) (args : Args) :
    Except ToolFailure Request :=
  let path := apiPath version
  let auth := "Bearer " ++ token
  match name with
  | "list_identities" =>
    let params := addParam args "limit" "limit" []
    let params := addParam args "offset" "offset" params
    let params := addParam args "filters" "filters" params
    let params := addParam args "sorters" "sorters" params
    .ok ⟨.get, path "/v3/public-identities", params, none, auth⟩
  | "get_identity" =>
    .ok ⟨.get, path ("/v3/public-identities/" ++ argString args "id"), [], none, auth⟩
  | "list_accounts" =>
    let params := addParam args "limit" "limit" []
    let params := addParam args "offset" "offset" params
    let params := addParam args "filters" "filters" params
    let params := addParam args "sorters" "sorters" params
    .ok ⟨.get, path "/v3/accounts", params, none, auth⟩
  | "get_account" =>
    .ok ⟨.get, path ("/v3/accounts/" ++ argString args "id"), [], none, auth⟩
  | "get_account_entitlements" =>
    let params := addParam args "limit" "limit" []
    let params := addParam args "offset" "offset" params
    .ok ⟨.get, path ("/v3/accounts/" ++ argString args "accountId" ++ "/entitlements"),
      params, none, auth⟩
  | "enable_account" =>
    .ok ⟨.post, path ("/v3/accounts/" ++ argString args "id" ++ "/enable"), [], none, auth⟩
  | "disable_account" =>
    .ok ⟨.post, path ("/v3/accounts/" ++ argString args "id" ++ "/disable"), [], none, auth⟩
  | "unlock_account" =>
    .ok ⟨.post, path ("/v3/accounts/" ++ argString args "id" ++ "/unlock"), [], none, auth⟩
  | "list_access_profiles" =>
    let params := addParam args "limit" "limit" []
    let params := addParam args "offset" "offset" params
    let params := addParam args "filters" "filters" params
    let params := addParam args "sorters" "sorters" params
    let params := addParam args "forSubadmin" "for-subadmin" params
    .ok ⟨.get, path "/v3/access-profiles", params, none, auth⟩
  | "get_access_profile" =>
    .ok ⟨.get, path ("/v3/access-profiles/" ++ argString args "id"), [], none, auth⟩
  | "create_access_profile" =>
    let fields : List (String × JValue) :=
      [("name", argD args "name"),
       ("source", .obj [("id", argD args "sourceId"), ("type", .str "SOURCE")]),
       ("owner", .obj [("id", argD args "ownerId"), ("type", .str "IDENTITY")])]
    let fields := if truthy (argD args "description")
      then fields ++ [("description", argD args "description")] else fields
    let fields := match args.lookup "requestable" with
      | some v => fields ++ [("requestable", v)]
      | none => fields
    let fields := if truthy (argD args "entitlementIds")
      then fields ++ [("entitlements", toRefArray (.str "ENTITLEMENT") (argD args "entitlementIds"))]
      else fields
    .ok ⟨.post, path "/v3/access-profiles", [], some (.obj fields), auth⟩
  | "list_roles" =>
    let params := addParam args "limit" "limit" []
    let params := addParam args "offset" "offset" params
    let params := addParam args "filters" "filters" params
    let params := addParam args "sorters" "sorters" params
    let params := addParam args "forSubadmin" "for-subadmin" params
    .ok ⟨.get, path "/v3/roles", params, none, auth⟩
  | "get_role" =>
    .ok ⟨.get, path ("/v3/roles/" ++ argString args "id"), [], none, auth⟩
  | "get_role_assigned_identities" =>
    let params := addParam args "limit" "limit" []
    let params := addParam args "offset" "offset" params
    .ok ⟨.get, path ("/v3/roles/" ++ argString args "roleId" ++ "/assigned-identities"),
      params, none, auth⟩
  | "create_role" =>
    let fields : List (String × JValue) :=
      [("name", argD args "name"),
       ("owner", .obj [("id", argD args "ownerId"), ("type", .str "IDENTITY")])]
    let fields := if truthy (argD args "description")
      then fields ++ [("description", argD args "description")] else fields
    let fields := match args.lookup "requestable" with
      | some v => fields ++ [("requestable", v)]
      | none => fields
    let fields := if truthy (argD args "accessProfileIds")
      then fields ++ [("accessProfiles", toRefArray (.str "ACCESS_PROFILE") (argD args "accessProfileIds"))]
      else fields
    .ok ⟨.post, path "/v3/roles", [], some (.obj fields), auth⟩
  | "list_certifications" =>
    let params := addParam args "limit" "limit" []
    let params := addParam args "offset" "offset" params
    let params := addParam args "filters" "filters" params
    .ok ⟨.get, path "/v3/certifications", params, none, auth⟩
  | "get_certification" =>
    .ok ⟨.get, path ("/v3/certifications/" ++ argString args "id"), [], none, auth⟩
  | "list_certification_campaigns" =>
    let params := addParam args "limit" "limit" []
    let params := addParam args "offset" "offset" params
    let params := addParam args "filters" "filters" params
    let params := addParam args "sorters" "sorters" params
    .ok ⟨.get, path "/v3/campaigns", params, none, auth⟩
  | "get_certification_campaign" =>
    .ok ⟨.get, path ("/v3/campaigns/" ++ argString args "id"), [], none, auth⟩
  | "list_workflows" =>
    let params := addParam args "limit" "limit" []
    let params := addParam args "offset" "offset" params
    .ok ⟨.get, path "/v3/workflows", params, none, auth⟩
  | "get_workflow" =>
    .ok ⟨.get, path ("/v3/workflows/" ++ argString args "id"), [], none, auth⟩
  | "get_workflow_executions" =>
    let params := addParam args "limit" "limit" []
    let params := addParam args "offset" "offset" params
    .ok ⟨.get, path ("/v3/workflows/" ++ argString args "workflowId" ++ "/executions"),
      params, none, auth⟩
  | "test_workflow" =>
    .ok ⟨.post, path ("/v3/workflows/" ++ argString args "workflowId" ++ "/test"), [],
      some (.obj [("input", argOr args "input" (.obj []))]), auth⟩
  | "list_sources" =>
    let params := addParam args "limit" "limit" []
    let params := addParam args "offset" "offset" params
    let params := addParam args "filters" "filters" params
    let params := addParam args "sorters" "sorters" params
    .ok ⟨.get, path "/v3/sources", params, none, auth⟩
  | "get_source" =>
    .ok ⟨.get, path ("/v3/sources/" ++ argString args "id"), [], none, auth⟩
  | "search" =>
    let queryObj : List (String × JValue) := [("query", argD args "query")]
    let queryObj := if truthy (argD args "queryType")
      then queryObj ++ [("queryType", argD args "queryType")] else queryObj
    let body : List (String × JValue) :=
      [("indices", argD args "indices"), ("query", .obj queryObj)]
    let body := if truthy (argD args "sort")
      then body ++ [("sort", argD args "sort")] else body
    let body := if truthy (argD args "searchAfter")
      then body ++ [("searchAfter", argD args "searchAfter")] else body
    let params := addParam args "limit" "limit" []
    let params := params ++ [("count", .bool true)]
    .ok ⟨.post, path "/v3/search", params, some (.obj body), auth⟩
  | "search_aggregate" =>
    let aggregationsRequest : List (String × JValue) :=
      [("field", argD args "aggregationField")]
    let aggregationsRequest := if truthy (argD args "limit")
      then aggregationsRequest ++ [("size", argD args "limit")] else aggregationsRequest
    let body : List (String × JValue) :=
      [("indices", argD args "indices"),
       ("aggregationType", argD args "aggregationType"),
       ("aggregationsRequest", .obj aggregationsRequest)]
    let body := if truthy (argD args "query")
      then body ++ [("query", .obj [("query", argD args "query")])] else body
    .ok ⟨.post, path "/v3/search/aggregate", [], some (.obj body), auth⟩
  | "list_entitlements" =>
    let params := addParam args "limit" "limit" []
    let params := addParam args "offset" "offset" params
    let params := addParam args "filters" "filters" params
    let params := addParam args "sorters" "sorters" params
    .ok ⟨.get, path "/v3/entitlements", params, none, auth⟩
  | "get_entitlement" =>
    .ok ⟨.get, path ("/v3/entitlements/" ++ argString args "id"), [], none, auth⟩
  | "list_access_requests" =>
    let params := addParam args "requestedFor" "requested-for" []
    let params := addParam args "requestedBy" "requested-by" params
    let params := addParam args "filters" "filters" params
    let params := addParam args "limit" "limit" params
    let params := addParam args "offset" "offset" params
    .ok ⟨.get, path "/v3/access-requests", params, none, auth⟩
  | "create_access_request" =>
    let body : List (String × JValue) :=
      [("requestedFor", argD args "requestedFor"),
       ("requestedItems", argD args "requestedItems"),
       ("requestType", argOr args "requestType" (.str "GRANT_ACCESS"))]
    .ok ⟨.post, path "/v3/access-requests", [], some (.obj body), auth⟩
  | "list_identity_profiles" =>
    let params := addParam args "limit" "limit" []
    let params := addParam args "offset" "offset" params
    let params := addParam args "filters" "filters" params
    let params := addParam args "sorters" "sorters" params
    .ok ⟨.get, path "/v3/identity-profiles", params, none, auth⟩
  | "get_identity_profile" =>
    .ok ⟨.get, path ("/v3/identity-profiles/" ++ argString args "id"), [], none, auth⟩
  | "list_sod_policies" =>
    let params := addParam args "limit" "limit" []
    let params := addParam args "offset" "offset" params
    let params := addParam args "filters" "filters" params
    .ok ⟨.get, path "/v3/sod-policies", params, none, auth⟩
  | "get_sod_policy" =>
    .ok ⟨.get, path ("/v3/sod-policies/" ++ argString args "id"), [], none, auth⟩
  | "list_sod_violations" =>
    let params := addParam args "limit" "limit" []
    let params := addParam args "offset" "offset" params
    .ok ⟨.get, path "/v3/sod-violations/predicted", params, none, auth⟩
  | _ => .error (.unknownTool ("Unknown tool: " ++ name))

/-- The names of the tools in the static `tools` catalogue
(src/index.ts lines 138-971), in declaration order. -/
def recognizedToolNames : List String :=
  ["list_identities", "get_identity",
   "list_accounts", "get_account", "get_account_entitlements",
   "enable_account", "disable_account", "unlock_account",
   "list_access_profiles", "get_access_profile", "create_access_profile",
   "list_roles", "get_role", "get_role_assigned_identities", "create_role",
   "list_certifications", "get_certification",
   "list_certification_campaigns", "get_certification_campaign",
   "list_workflows", "get_workflow", "get_workflow_executions", "test_workflow",
   "list_sources", "get_source",
   "search", "search_aggregate",
   "list_entitlements", "get_entitlement",
   "list_access_requests", "create_access_request",
   "list_identity_profiles", "get_identity_profile",
   "list_sod_policies", "get_sod_policy", "list_sod_violations"]

/-- The documented method+path table, transcribed from the repository
file `docs/architecture/components.md` (API Endpoint Mapping): tool name,
HTTP method, path template with `\x7bid\x7d` as the path-parameter
placeholder. -/
def documentedTable : List (String × Method × String) :=
  [("list_identities", .get, "/v3/public-identities"),
   ("get_identity", .get, "/v3/public-identities/{id}"),
   ("list_accounts", .get, "/v3/accounts"),
   ("get_account", .get, "/v3/accounts/{id}"),
   ("get_account_entitlements", .get, "/v3/accounts/{id}/entitlements"),
   ("list_access_profiles", .get, "/v3/access-profiles"),
   ("get_access_profile", .get, "/v3/access-profiles/{id}"),
   ("list_roles", .get, "/v3/roles"),
   ("get_role", .get, "/v3/roles/{id}"),
   ("get_role_assigned_identities", .get, "/v3/roles/{id}/assigned-identities"),
   ("list_certifications", .get, "/v3/certifications"),
   ("get_certification", .get, "/v3/certifications/{id}"),
   ("list_certification_campaigns", .get, "/v3/campaigns"),
   ("get_certification_campaign", .get, "/v3/campaigns/{id}"),
   ("list_workflows", .get, "/v3/workflows"),
   ("get_workflow", .get, "/v3/workflows/{id}"),
   ("get_workflow_executions", .get, "/v3/workflows/{id}/executions"),
   ("list_sources", .get, "/v3/sources"),
   ("get_source", .get, "/v3/sources/{id}"),
   ("list_entitlements", .get, "/v3/entitlements"),
   ("get_entitlement", .get, "/v3/entitlements/{id}"),
   ("list_access_requests", .get, "/v3/access-requests"),
   ("list_identity_profiles", .get, "/v3/identity-profiles"),
   ("get_identity_profile", .get, "/v3/identity-profiles/{id}"),
   ("list_sod_policies", .get, "/v3/sod-policies"),
   ("get_sod_policy", .get, "/v3/sod-policies/{id}"),
   ("list_sod_violations", .get, "/v3/sod-violations/predicted"),
   ("create_access_profile", .post, "/v3/access-profiles"),
   ("create_role", .post, "/v3/roles"),
   ("create_access_request", .post, "/v3/access-requests"),
   ("enable_account", .post, "/v3/accounts/{id}/enable"),
   ("disable_account", .post, "/v3/accounts/{id}/disable"),
   ("unlock_account", .post, "/v3/accounts/{id}/unlock"),
   ("test_workflow", .post, "/v3/workflows/{id}/test"),
   ("search", .post, "/v3/search"),
   ("search_aggregate", .post, "/v3/search/aggregate")]

/-- Argument bag whose path parameters all carry the literal value
`"\x7bid\x7d"`, so that a generated path coincides textually with the
documented path template. -/
def placeholderArgs : Args :=
  [("id", .str "{id}"), ("accountId", .str "{id}"),
   ("roleId", .str "{id}"), ("workflowId", .str "{id}")]

/-- The path component of the request a recognized tool generates
(empty for the unknown-tool error branch). -/
def requestPath (version token name : String) (args : Args) : String :=
  match buildRequest version token name args with
  | .ok r => r.path
  | .error _ => ""

/-- An upstream HTTP response: parsed JSON body plus response headers. -/
structure UpstreamResponse where
  data : JValue
  headers : List (String × String)
deriving Repr

/-- How `handleTool` turns the upstream response into its return value:
every tool returns `response.data` unchanged, except `search`, which
wraps the body together with the `x-total-count` header. -/
def toolResult (name : String) (resp : UpstreamResponse) : JValue :=
  match name with
  | "search" =>
    .obj [("results", resp.data),
          ("totalCount", .str ((resp.headers.lookup "x-total-count").getD ""))]
  | _ => resp.data

/-! ## Error formatter (formatError, src/index.ts lines 99-112) -/

/-- One entry of an upstream `messages` array. -/
structure ErrMessage where
  text : String
deriving Repr, DecidableEq

/-- The upstream error body shape `formatError` inspects:
`\x7b message?, detailCode?, messages? \x7d`. -/
structure UpstreamErrorData where
  message : Option String
  detailCode : Option String
  messages : Option (List ErrMessage)
deriving Repr, DecidableEq

/-- The part of an axios error response `formatError` reads:
`response.status` and the parsed `response.data` (absent when the body is
not one of the structured shapes). -/
structure AxiosResponseInfo where
  status : Nat
  data : Option UpstreamErrorData
deriving Repr, DecidableEq

/-- An error reaching `formatError`: an axios error (with or without an
HTTP response) carrying a transport `message`, or any other value already
rendered by JS `String(error)`. -/
inductive JsError where
  | axiosError : Option AxiosResponseInfo → String → JsError
  | other : String → JsError
deriving Repr, DecidableEq

/-- The `HTTP ...` fallback line of `formatError`; a missing response
renders its status as JS `String(undefined)`. -/
def httpFallback (resp : Option AxiosResponseInfo) (msg : String) : String :=
  "HTTP " ++ (match resp with | some r => toString r.status | none => "undefined")
    ++ ": " ++ msg

/-- `formatError`: `messages` array joined with `"; "` when present;
else `detailCode || "Error"` prefixed to a truthy `message`; else the
HTTP status fallback; non-axios errors via `String(error)`. -/
def formatError (e : JsError) : String :=
  match e with
  | .other s => s
  | .axiosError resp msg =>
    match resp.bind AxiosResponseInfo.data with
    | some d =>
      match d.messages with
      | some ms => String.intercalate "; " (ms.map ErrMessage.text)
      | none =>
        match d.message with
        | some m =>
          if m ≠ "" then
            (match d.detailCode with
             | some dc => if dc ≠ "" then dc else "Error"
             | none => "Error") ++ ": " ++ m
          else httpFallback resp msg
        | none => httpFallback resp msg
    | none => httpFallback resp msg

/-! ## Configuration validation and tool entry (src/index.ts 115-135, 974-979, 1356-1363) -/

/-- The environment-derived configuration: `process.env.X || ""` for the
three credentials and `process.env.SAILPOINT_API_VERSION || "v3"` for the
version selector, already resolved. -/
structure Config where
  baseUrl : String
  clientId : String
  clientSecret : String
  apiVersion : String
deriving Repr, DecidableEq

/-- The `missingVars` list `validateCredentials` accumulates, in push
order. -/
def missingVars (cfg : Config) : List String :=
  (if cfg.baseUrl = "" then ["SAILPOINT_BASE_URL"] else []) ++
  (if cfg.clientId = "" then ["SAILPOINT_CLIENT_ID"] else []) ++
  (if cfg.clientSecret = "" then ["SAILPOINT_CLIENT_SECRET"] else [])

/-- The exact error message `validateCredentials` throws, enumerating the
missing variables. -/
def credentialErrorMessage (vars : List String) : String :=
  "Missing required environment variables: " ++ String.intercalate ", " vars ++
  ". Please set SAILPOINT_BASE_URL to your tenant API URL (e.g., https://acme.api.identitynow.com), " ++
  "and SAILPOINT_CLIENT_ID and SAILPOINT_CLIENT_SECRET from your SailPoint tenant Personal Access Token."

/-- `validateCredentials()`: throws when any required variable is unset. -/
def validateCredentials (cfg : Config) : Except ToolFailure Unit :=
  let m := missingVars cfg
  if m.length > 0 then .error (.configError (credentialErrorMessage m))
  else .ok ()

/-- `handleTool` up to the single upstream domain request it would issue:
credentials are validated first (before any token or domain I/O), then
the dispatch switch runs. -/
def handleTool (cfg : Config) (token name : String) (args : Args) :
    Except ToolFailure Request :=
  match validateCredentials cfg with
  | .error e => .error e
  | .ok _ => buildRequest cfg.apiVersion token name args

/-- The upstream domain requests one `handleTool` invocation issues: one
on success, none when it fails beforehand. -/
def issuedRequests (cfg : Config) (token name : String) (args : Args) :
    List Request :=
  match handleTool cfg token name args with
  | .ok r => [r]
  | .error _ => []

/-- The query-parameter keys of a dispatch result (empty on failure). -/
def queryKeys (e : Except ToolFailure Request) : List String :=
  match e with
  | .ok r => r.query.map Prod.fst
  | .error _ => []

/-- Outcome of process startup (`main`, src/index.ts lines 1356-1363). -/
structure StartupOutcome where
  succeeded : Bool
  warned : Bool
deriving Repr, DecidableEq

/-- The startup behavior of `main` with respect to configuration: it never
fails on missing credentials; it only logs a warning when
`SAILPOINT_BASE_URL && SAILPOINT_CLIENT_ID && SAILPOINT_CLIENT_SECRET`
is falsy. -/
def startup (cfg : Config) : StartupOutcome :=
  let hasCredentials :=
    cfg.baseUrl ≠ "" && cfg.clientId ≠ "" && cfg.clientSecret ≠ ""
  ⟨true, !hasCredentials⟩

/-- The list-style tools: the catalogue entries whose optional arguments
all flow into GET query parameters through the
`if (args.x) params.x = args.x` pattern and whose path carries no
argument. -/
def listStyleTools : List String :=
  ["list_identities", "list_accounts", "list_access_profiles", "list_roles",
   "list_certifications", "list_certification_campaigns", "list_workflows",
   "list_sources", "list_entitlements", "list_access_requests",
   "list_identity_profiles", "list_sod_policies", "list_sod_violations"]

/-! ## Helper lemmas -/

theorem data_append (a b : String) : (a ++ b).data = a.data ++ b.data := rfl

theorem replaceFirstAux_at_start (repl rest : List Char) :
    replaceFirstAux "/v3/".data repl ('/' :: 'v' :: '3' :: '/' :: rest) =
      repl ++ rest := by
  simp [replaceFirstAux, List.isPrefixOf, String.data]

theorem v3_lit : ("/" ++ "v3" ++ "/" : String) = "/v3/" := by decide

theorem v3_data : ("/v3/" : String).data = ['/', 'v', '3', '/'] := by decide

/-- Substituting a version into a path that begins with the baseline
segment `/v3/` equals replacing the first occurrence of that segment in
the baseline path. -/
theorem apiPath_subst_chars (v T : String)
    (h : T.data.take 4 = ['/', 'v', '3', '/']) :
    apiPath v T = jsReplaceFirst (apiPath "v3" T) "/v3/" ("/" ++ v ++ "/") := by
  obtain ⟨l⟩ := T
  rcases l with _ | ⟨c1, l⟩
  · simp at h
  rcases l with _ | ⟨c2, l⟩
  · simp at h
  rcases l with _ | ⟨c3, l⟩
  · simp at h
  rcases l with _ | ⟨c4, l⟩
  · simp at h
  simp [List.take] at h
  obtain ⟨rfl, rfl, rfl, rfl⟩ := h
  simp only [jsReplaceFirst, apiPath]
  rw [replaceFirstAux_at_start, replaceFirstAux_at_start, v3_lit, v3_data]
  show String.mk _ = String.mk (replaceFirstAux _ _ ('/' :: 'v' :: '3' :: '/' :: l))
  rw [replaceFirstAux_at_start]

theorem take4_append (pre s : String) (pat : List Char)
    (h4 : pre.data.take 4 = pat) (hlen : 4 ≤ pre.data.length) :
    (pre ++ s).data.take 4 = pat := by
  rw [data_append, List.take_append_of_le_length hlen, h4]

theorem len4_append (pre s : String) (hlen : 4 ≤ pre.data.length) :
    4 ≤ (pre ++ s).data.length := by
  rw [data_append, List.length_append]
  exact le_trans hlen (Nat.le_add_right _ _)

/-- Removing all bindings of key `k` from an argument bag leaves lookups
of other keys unchanged. -/
theorem lookup_filter_ne (args : Args) (k key : String) (h : key ≠ k) :
    (args.filter (fun p => p.1 != k)).lookup key = args.lookup key := by
  induction args with
  | nil => rfl
  | cons a rest ih =>
    obtain ⟨ka, va⟩ := a
    by_cases ha : ka = k
    · subst ha
      have h2 : (key == ka) = false := by simp [h]
      simp [List.filter_cons, List.lookup, h2, ih]
    · have h2 : (ka != k) = true := by simp [ha]
      cases hkey : key == ka <;>
        simp [List.filter_cons, List.lookup, h2, hkey, ih]

/-- After removing all bindings of key `k`, looking up `k` finds
nothing. -/
theorem lookup_filter_self (args : Args) (k : String) :
    (args.filter (fun p => p.1 != k)).lookup k = none := by
  induction args with
  | nil => rfl
  | cons a rest ih =>
    obtain ⟨ka, va⟩ := a
    by_cases ha : ka = k
    · subst ha
      simp [List.filter_cons, ih]
    · have h2 : (ka != k) = true := by simp [ha]
      have h3 : (k == ka) = false := by simp [Ne.symm ha]
      simp [List.filter_cons, List.lookup, h2, h3, ih]

/-- `if (args.key) params[dk] = args.key` behaves identically on an
argument bag and on that bag with a falsy-valued key removed. -/
theorem addParam_filter (args : Args) (k : String) (v : JValue)
    (hv : truthy v = false) (hk : args.lookup k = some v)
    (key dk : String) (acc : List (String × JValue)) :
    addParam (args.filter (fun p => p.1 != k)) key dk acc =
      addParam args key dk acc := by
  by_cases h : key = k
  · subst h
    unfold addParam
    rw [hk, lookup_filter_self]
    simp [hv]
  · unfold addParam
    rw [lookup_filter_ne args k key h]

/-- Replacing one component of an assembled request respects equality of
the query lists. -/
theorem ok_request_congr (m : Method) (P : String)
    (q1 q2 : List (String × JValue)) (b : Option JValue) (a : String)
    (h : q1 = q2) :
    (Except.ok ⟨m, P, q1, b, a⟩ : Except ToolFailure Request) =
      .ok ⟨m, P, q2, b, a⟩ := by
  rw [h]

/-! ## Claim theorems -/

/-- C2 counterexample: a cached token that is the empty string is falsy
in JS, so even with an expiry 61 seconds in the future (state
`accessToken = some ""`, `tokenExpiry = 61000`, `now = 0`) the code
performs a credential-exchange network call and returns a different
token, contradicting the claim that every cached token with such an
expiry is reused with zero network calls. -/
theorem token_reuse_counterexample :
    (61000 : Int) ≥ 0 + 61000 ∧
    (getAccessToken ⟨some "", 61000⟩ 0 ⟨"newtok", none⟩).networkCalls = 1 ∧
    (getAccessToken ⟨some "", 61000⟩ 0 ⟨"newtok", none⟩).token = "newtok" := by
  decide

/-- C2 (amended): for every cached nonempty token whose expiry is at
least 61 seconds after the current time, getAccessToken issues zero
network calls, returns the same token value, and leaves the cache
unchanged. -/
theorem token_reuse (t : String) (e now : Int) (r : TokenResponse)
    (ht : t ≠ "") (he : e ≥ now + 61000) :
    getAccessToken ⟨some t, e⟩ now r = ⟨t, ⟨some t, e⟩, 0⟩ := by
  simp only [getAccessToken]
  rw [if_pos ⟨ht, by omega⟩]

/-- C2 witness. -/
theorem token_reuse_witness :
    getAccessToken ⟨some "tok", 61001⟩ 0 ⟨"x", none⟩ =
      ⟨"tok", ⟨some "tok", 61001⟩, 0⟩ :=
  token_reuse "tok" 61001 0 ⟨"x", none⟩ (by decide) (by omega)

/-- C3: with no cached token, or with a cached token whose expiry is at
most 59 seconds after the current time, getAccessToken performs exactly
one credential-exchange call and replaces the cached token value and
expiry with the values derived from the exchange response. -/
theorem token_refresh (st : TokenState) (now : Int) (r : TokenResponse)
    (h : st.accessToken = none ∨ st.tokenExpiry ≤ now + 59000) :
    getAccessToken st now r =
      ⟨r.access_token, ⟨some r.access_token,
        now + (match r.expires_in with
               | some v => if v = 0 then 720 else v
               | none => 720) * 1000⟩, 1⟩ := by
  obtain ⟨tok, exp⟩ := st
  rcases tok with _ | t
  · rfl
  · have h2 : exp ≤ now + 59000 := by
      rcases h with h | h
      · exact absurd h (by simp)
      · simpa using h
    simp only [getAccessToken]
    rw [if_neg]
    · rfl
    · rintro ⟨-, hgt⟩
      omega

/-- C3 witness. -/
theorem token_refresh_witness :
    getAccessToken ⟨none, 0⟩ 5 ⟨"t", some 600⟩ =
      ⟨"t", ⟨some "t", 5 + 600 * 1000⟩, 1⟩ :=
  token_refresh ⟨none, 0⟩ 5 ⟨"t", some 600⟩ (Or.inl rfl)

/-- C4 counterexample: a credential-exchange response with `expires_in`
present and equal to 0 yields expiry `now + 720000` (the default), not
`now + 0`, because `response.data.expires_in || 720` defaults on every
falsy value, contradicting the claim that a present `expires_in` always
gives `now + expires_in` seconds. -/
theorem default_ttl_counterexample :
    (getAccessToken ⟨none, 0⟩ 1000 ⟨"t", some 0⟩).state.tokenExpiry =
      1000 + 720 * 1000 ∧
    (1000 + 720 * 1000 : Int) ≠ 1000 + 0 * 1000 := by
  decide

/-- C4 (amended): on refresh, when the exchange response omits
`expires_in` or carries the falsy value 0, the new expiry is the
refresh-time now plus the 720-second default; when `expires_in` is
present and nonzero, the new expiry is now plus `expires_in` seconds. -/
theorem expiry_from_expires_in (now : Int) (tok : String) (ei : Option Int) :
    (getAccessToken ⟨none, 0⟩ now ⟨tok, ei⟩).state.tokenExpiry =
      match ei with
      | none => now + 720 * 1000
      | some v => if v = 0 then now + 720 * 1000 else now + v * 1000 := by
  rcases ei with _ | v
  · rfl
  · by_cases hv : v = 0 <;> simp [getAccessToken, refreshToken, hv]

/-- C6: formatError maps a body with a messages list to the texts joined
by a semicolon-space, a body with detailCode and message to
detailCode-colon-message, and an HTTP error with neither shape to
HTTP-status-message; the messages branch takes priority over the
detailCode branch, which takes priority over the HTTP fallback. -/
theorem formatError_spec :
    (formatError (.axiosError
        (some ⟨400, some ⟨none, none, some [⟨"A"⟩, ⟨"B"⟩]⟩⟩)
        "Request failed") = "A; B") ∧
    (formatError (.axiosError
        (some ⟨400, some ⟨some "Y", some "X", none⟩⟩)
        "Request failed") = "X: Y") ∧
    (formatError (.axiosError
        (some ⟨404, some ⟨none, none, none⟩⟩)
        "Request failed with status code 404") =
      "HTTP 404: Request failed with status code 404") ∧
    (∀ (st : Nat) (d : UpstreamErrorData) (msg : String)
        (ms : List ErrMessage), d.messages = some ms →
      formatError (.axiosError (some ⟨st, some d⟩) msg) =
        String.intercalate "; " (ms.map ErrMessage.text)) ∧
    (∀ (st : Nat) (d : UpstreamErrorData) (msg m : String),
      d.messages = none → d.message = some m → m ≠ "" →
      formatError (.axiosError (some ⟨st, some d⟩) msg) =
        (match d.detailCode with
         | some dc => if dc ≠ "" then dc else "Error"
         | none => "Error") ++ ": " ++ m) := by
  refine ⟨by decide, by decide, by decide, ?_, ?_⟩
  · intro st d msg ms hms
    simp [formatError, hms]
  · intro st d msg m hms hm hne
    simp [formatError, hms, hm, hne]

/-- C6 witness: with both a messages list and a detailCode present, the
messages branch wins. -/
theorem formatError_spec_witness :
    formatError (.axiosError
      (some ⟨500, some ⟨some "Y", some "X", some [⟨"A"⟩]⟩⟩) "m") = "A" := by
  rw [formatError_spec.2.2.2.1 500 ⟨some "Y", some "X", some [⟨"A"⟩]⟩ "m"
    [⟨"A"⟩] rfl]
  decide

/-- C1 counterexample: the static catalogue recognizes 36 tool names, not
40, so the claim quantifying over "the 40 recognized tool names" does not
describe this code. -/
theorem catalogue_count_counterexample :
    recognizedToolNames.length = 36 ∧ (36 : Nat) ≠ 40 := by
  decide

/-- C1 (amended): for every one of the 36 recognized tool names, the
dispatcher selects exactly one HTTP method and path, matching the
documented endpoint table entry for that name (with the documented
placeholder substituted for the path argument); for every name outside
the static table it fails with the unknown-tool error. -/
theorem dispatch_matches_table :
    (recognizedToolNames.length = 36 ∧
     (recognizedToolNames.all (fun name =>
       match buildRequest "v3" "tok" name placeholderArgs,
             documentedTable.lookup name with
       | .ok r, some (m, p) => r.method == m && r.path == p
       | _, _ => false)) = true) ∧
    (∀ (version token name : String) (args : Args),
      name ∉ recognizedToolNames →
      buildRequest version token name args =
        .error (.unknownTool ("Unknown tool: " ++ name))) := by
  refine ⟨⟨by decide, by decide⟩, ?_⟩
  intro version token name args h
  unfold buildRequest
  split
  all_goals first
    | rfl
    | simp_all [recognizedToolNames]

/-- C1 witness. -/
theorem dispatch_matches_table_witness :
    buildRequest "v3" "t" "bogus_tool" [] =
      .error (.unknownTool ("Unknown tool: " ++ "bogus_tool")) :=
  dispatch_matches_table.2 "v3" "t" "bogus_tool" [] (by decide)

/-- C5 counterexample: invoking list_identities with limit 50 and
offset 0 produces a request whose query carries only limit=50; the
offset key is absent because the number 0 is falsy, contradicting the
claim that the request carries offset=0. -/
theorem list_identities_offset_counterexample :
    buildRequest "v3" "t" "list_identities"
        [("limit", .num 50), ("offset", .num 0)] =
      .ok ⟨.get, "/v3/public-identities", [("limit", .num 50)], none,
        "Bearer t"⟩ ∧
    "offset" ∉ queryKeys (buildRequest "v3" "t" "list_identities"
      [("limit", .num 50), ("offset", .num 0)]) := by
  refine ⟨rfl, by decide⟩

/-- C5 (amended): invoking list_identities with limit 50 and offset 0
produces exactly one GET request to the versioned public-identities path
with query parameter limit=50 (offset omitted, 0 being falsy) and a
bearer Authorization header, and the upstream JSON response is returned
unchanged. -/
theorem list_identities_request (version token : String)
    (resp : UpstreamResponse) :
    buildRequest version token "list_identities"
        [("limit", .num 50), ("offset", .num 0)] =
      .ok ⟨.get, apiPath version "/v3/public-identities",
        [("limit", .num 50)], none, "Bearer " ++ token⟩ ∧
    toolResult "list_identities" resp = resp.data := ⟨rfl, rfl⟩

/-- C7: invoking any tool with any required configuration value unset
fails with the configuration error enumerating exactly the missing
variables by name, no upstream request is issued, and process startup
still succeeds, emitting only a warning. -/
theorem missing_config (cfg : Config) (token name : String) (args : Args)
    (h : cfg.baseUrl = "" ∨ cfg.clientId = "" ∨ cfg.clientSecret = "") :
    handleTool cfg token name args =
      .error (.configError (credentialErrorMessage (missingVars cfg))) ∧
    (∀ x, x ∈ missingVars cfg ↔
      (x = "SAILPOINT_BASE_URL" ∧ cfg.baseUrl = "") ∨
      (x = "SAILPOINT_CLIENT_ID" ∧ cfg.clientId = "") ∨
      (x = "SAILPOINT_CLIENT_SECRET" ∧ cfg.clientSecret = "")) ∧
    issuedRequests cfg token name args = [] ∧
    startup cfg = ⟨true, true⟩ := by
  have hne : missingVars cfg ≠ [] := by
    rcases h with h | h | h <;> simp [missingVars, h]
  have hmain : handleTool cfg token name args =
      .error (.configError (credentialErrorMessage (missingVars cfg))) := by
    unfold handleTool validateCredentials
    rw [if_pos (List.length_pos.mpr hne)]
  refine ⟨hmain, ?_, ?_, ?_⟩
  · intro x
    by_cases h1 : cfg.baseUrl = "" <;> by_cases h2 : cfg.clientId = "" <;>
      by_cases h3 : cfg.clientSecret = "" <;>
      simp [missingVars, h1, h2, h3]
  · unfold issuedRequests
    rw [hmain]
  · rcases h with h | h | h <;> simp [startup, h]

/-- C7 witness. -/
theorem missing_config_witness :
    handleTool ⟨"", "", "", "v3"⟩ "t" "list_identities" [] =
      .error (.configError (credentialErrorMessage
        ["SAILPOINT_BASE_URL", "SAILPOINT_CLIENT_ID",
         "SAILPOINT_CLIENT_SECRET"])) := by
  rw [(missing_config ⟨"", "", "", "v3"⟩ "t" "list_identities" []
    (Or.inl rfl)).1]
  rfl

/-- C8: for every recognized tool, the path generated under any API
version selector equals the path generated under the baseline selector
with the first occurrence of the baseline segment replaced by the
selected segment — one uniform string substitution on every outgoing
path. -/
theorem version_substitution (v token name : String) (args : Args)
    (h : name ∈ recognizedToolNames) :
    requestPath v token name args =
      jsReplaceFirst (requestPath "v3" token name args) "/v3/"
        ("/" ++ v ++ "/") := by
  fin_cases h <;>
  first
    | exact apiPath_subst_chars v _ (by decide)
    | exact apiPath_subst_chars v _ (take4_append _ _ _ (by decide) (by decide))
    | exact apiPath_subst_chars v _
        (take4_append _ _ _ (take4_append _ _ _ (by decide) (by decide))
          (len4_append _ _ (by decide)))

/-- C8 witness. -/
theorem version_substitution_witness :
    requestPath "v2025" "t" "get_account" [("id", .str "A1")] =
      jsReplaceFirst (requestPath "v3" "t" "get_account" [("id", .str "A1")])
        "/v3/" ("/" ++ "v2025" ++ "/") :=
  version_substitution "v2025" "t" "get_account" [("id", .str "A1")]
    (by decide)

/-- C9: invoking create_access_request with requestedFor and
requestedItems present and requestType absent produces a POST body whose
requestType equals GRANT_ACCESS, with requestedFor and requestedItems
passed through unchanged. -/
theorem create_access_request_defaults (version token : String)
    (rf ri : JValue) :
    buildRequest version token "create_access_request"
        [("requestedFor", rf), ("requestedItems", ri)] =
      .ok ⟨.post, apiPath version "/v3/access-requests", [],
        some (.obj [("requestedFor", rf), ("requestedItems", ri),
                    ("requestType", .str "GRANT_ACCESS")]),
        "Bearer " ++ token⟩ := rfl

/-- C10: for every list-style tool, an optional argument supplied with a
falsy value is treated identically to an absent argument: the generated
request equals the one produced after deleting that key from the
argument bag, so presence in the outgoing query is decided by JS
truthiness of the value. -/
theorem falsy_optional_args (version token k name : String) (v : JValue)
    (args : Args) (hv : truthy v = false) (hk : args.lookup k = some v)
    (hname : name ∈ listStyleTools) :
    buildRequest version token name args =
      buildRequest version token name
        (args.filter (fun p => p.1 != k)) := by
  have hadd := addParam_filter args k v hv hk
  fin_cases hname <;>
    exact ok_request_congr _ _ _ _ _ _ ((by simp only [hadd]))

/-- C10 witness. -/
theorem falsy_optional_args_witness :
    buildRequest "v3" "t" "list_identities"
        [("limit", .num 5), ("offset", .num 0)] =
      buildRequest "v3" "t" "list_identities"
        ([("limit", JValue.num 5), ("offset", JValue.num 0)].filter
          (fun p => p.1 != "offset")) :=
  falsy_optional_args "v3" "t" "offset" "list_identities" (.num 0)
    [("limit", .num 5), ("offset", .num 0)] rfl rfl (by decide)

end SailPoint
